import Mathlib

/-!
Verification of the collision subsystem of mini-exp-1.

The subsystem under study (src/main.rs) keeps axis-aligned bounding
volumes attached to entities, recomputes world-space bounds each frame,
tests pairs for overlap, and resolves solid-solid overlaps by a
shallow-axis displacement chosen by a movement-policy dispatch.

This file gives a shallow embedding of that code over exact rational
arithmetic (the Rust source computes with 32-bit floats; the properties
studied here concern the branch structure and the exact arithmetic of
the algorithms, which coincide where no rounding occurs) and proves or
refutes the stated properties.
-/

/-- Entities are identified by a numeric id (Rust: `bevy::Entity`). -/
abbrev Entity := Nat

/-- Volume identities (Rust: `uuid::Uuid`). -/
abbrev Uuid := Nat

/-- Two-component vector with exact rational components (Rust: `Vec2`). -/
structure Vec2 where
  x : ℚ
  y : ℚ
deriving DecidableEq

/-- Three-component vector (Rust: `Vec3`, used for transform translations). -/
structure Vec3 where
  x : ℚ
  y : ℚ
  z : ℚ
deriving DecidableEq

/-- Componentwise addition on `Vec2`. -/
def Vec2.add (a b : Vec2) : Vec2 := ⟨a.x + b.x, a.y + b.y⟩

/-- Componentwise subtraction on `Vec2`. -/
def Vec2.sub (a b : Vec2) : Vec2 := ⟨a.x - b.x, a.y - b.y⟩

/-- Rust `Vec2::extend`: append a z component. -/
def Vec2.extend (v : Vec2) (z : ℚ) : Vec3 := ⟨v.x, v.y, z⟩

/-- Componentwise addition on `Vec3` (Rust: `translation += displacement.extend(0.0)`). -/
def Vec3.addVec (a b : Vec3) : Vec3 := ⟨a.x + b.x, a.y + b.y, a.z + b.z⟩

/-- Rust `Vec3Swizzles::xy`. -/
def Vec3.xy (v : Vec3) : Vec2 := ⟨v.x, v.y⟩

/-- main.rs line 25: `const SCALE: f32 = 4.;` -/
def SCALE : ℚ := 4

/-- main.rs lines 42-46: a bounding volume component. -/
structure Aabb where
  uuid : Uuid
  extents : Vec2
deriving DecidableEq

/-- main.rs lines 48-52: `Aabb::extents`, `self.extents * SCALE / 2.0`
(named `extentsScaled` here because the Rust method shadows the field). -/
def Aabb.extentsScaled (a : Aabb) : Vec2 :=
  ⟨a.extents.x * SCALE / 2, a.extents.y * SCALE / 2⟩

/-- main.rs lines 54-58: volume kind. -/
inductive AabbKind where
  | Sensor
  | Collider
deriving DecidableEq

/-- main.rs lines 60-65: classification of an overlapping pair. -/
inductive CollisionKind where
  | SensorSensor
  | ColliderCollider
  | SensorCollider
deriving DecidableEq

/-- main.rs lines 67-74: per-volume movement policy. -/
inductive CollisionBehavior where
  | None
  | Static
  | Npc
  | Player
  | Movable
deriving DecidableEq

/-- main.rs lines 76-82: world-space computed bounds plus copied tags. -/
structure AabbComputed where
  min : Vec2
  max : Vec2
  aabb_kind : AabbKind
  collision_behavior : CollisionBehavior
deriving DecidableEq

/-- main.rs lines 85-111: `AabbComputed::intersects`.  Returns `none` when
both volumes share an owner; otherwise reports an overlap exactly when, on
each axis, one of `self`'s corners lies inclusively within `other`'s span,
classifying the pair by the two volume kinds. -/
def AabbComputed.intersects (self other : AabbComputed)
    (self_ent other_ent : Entity) : Option CollisionKind :=
  if self_ent = other_ent then
    none
  else if ((self.min.x ≥ other.min.x ∧ self.min.x ≤ other.max.x) ∨
            (self.max.x ≥ other.min.x ∧ self.max.x ≤ other.max.x)) ∧
           ((self.min.y ≥ other.min.y ∧ self.min.y ≤ other.max.y) ∨
            (self.max.y ≥ other.min.y ∧ self.max.y ≤ other.max.y)) then
    some (match self.aabb_kind, other.aabb_kind with
      | AabbKind.Collider, AabbKind.Collider => CollisionKind.ColliderCollider
      | AabbKind.Collider, AabbKind.Sensor => CollisionKind.SensorCollider
      | AabbKind.Sensor, AabbKind.Collider => CollisionKind.SensorCollider
      | AabbKind.Sensor, AabbKind.Sensor => CollisionKind.SensorSensor)
  else
    none

/-- Model of `f32::abs`, written as an executable conditional so that
concrete evaluations reduce in the kernel. -/
def fabs (q : ℚ) : ℚ := if q < 0 then -q else q

/-- main.rs lines 113-133: `AabbComputed::shallow_axis_displace`. -/
def AabbComputed.shallow_axis_displace (self other : AabbComputed) : Vec2 :=
  let left_displacement := other.min.x - self.max.x
  let right_displacement := other.max.x - self.min.x
  let down_displacement := other.min.y - self.max.y
  let up_displacement := other.max.y - self.min.y
  let horizontal :=
    if fabs left_displacement < fabs right_displacement then left_displacement
    else right_displacement
  let vertical :=
    if fabs up_displacement < fabs down_displacement then up_displacement
    else down_displacement
  if fabs horizontal < fabs vertical then Vec2.mk (horizontal / 2) 0
  else Vec2.mk 0 (vertical / 2)

/-- Outcome of resolving one ordered pair in `handle_collision`:
either updated `Transform` / `GlobalTransform` translation stores, or an
abort of the process (a `todo!()` branch was reached). -/
inductive ResolveResult where
  | ok (transform_q : Entity → Vec3) (gtransform_q : Entity → Vec3)
  | abort

/-- main.rs lines 397-457: the body of `handle_collision` for one ordered
pair drawn from the registry.  Transform stores are modelled as total maps
from entities to translations; the Rust `todo!()` arms abort the process. -/
def handle_collision_pair (ent1 ent2 : Entity) (aabb1 aabb2 : AabbComputed)
    (transform_q gtransform_q : Entity → Vec3) : ResolveResult :=
  match aabb1.intersects aabb2 ent1 ent2 with
  | some CollisionKind.ColliderCollider =>
    match aabb1.collision_behavior, aabb2.collision_behavior with
    | CollisionBehavior.Player, CollisionBehavior.Static =>
        let displacement := aabb1.shallow_axis_displace aabb2
        ResolveResult.ok
          (fun e => if e = ent1 then (transform_q e).addVec (displacement.extend 0)
                    else transform_q e)
          (fun e => if e = ent1 then (gtransform_q e).addVec (displacement.extend 0)
                    else gtransform_q e)
    | CollisionBehavior.Static, CollisionBehavior.Player =>
        let displacement := aabb2.shallow_axis_displace aabb1
        ResolveResult.ok
          (fun e => if e = ent2 then (transform_q e).addVec (displacement.extend 0)
                    else transform_q e)
          (fun e => if e = ent2 then (gtransform_q e).addVec (displacement.extend 0)
                    else gtransform_q e)
    | CollisionBehavior.None, CollisionBehavior.None =>
        ResolveResult.ok transform_q gtransform_q
    | CollisionBehavior.None, CollisionBehavior.Static => ResolveResult.abort
    | CollisionBehavior.None, CollisionBehavior.Npc => ResolveResult.abort
    | CollisionBehavior.None, CollisionBehavior.Player => ResolveResult.abort
    | CollisionBehavior.None, CollisionBehavior.Movable => ResolveResult.abort
    | CollisionBehavior.Static, CollisionBehavior.None => ResolveResult.abort
    | CollisionBehavior.Static, CollisionBehavior.Static => ResolveResult.abort
    | CollisionBehavior.Static, CollisionBehavior.Npc => ResolveResult.abort
    | CollisionBehavior.Static, CollisionBehavior.Movable => ResolveResult.abort
    | CollisionBehavior.Npc, CollisionBehavior.None => ResolveResult.abort
    | CollisionBehavior.Npc, CollisionBehavior.Static => ResolveResult.abort
    | CollisionBehavior.Npc, CollisionBehavior.Npc => ResolveResult.abort
    | CollisionBehavior.Npc, CollisionBehavior.Player => ResolveResult.abort
    | CollisionBehavior.Npc, CollisionBehavior.Movable => ResolveResult.abort
    | CollisionBehavior.Player, CollisionBehavior.None => ResolveResult.abort
    | CollisionBehavior.Player, CollisionBehavior.Npc => ResolveResult.abort
    | CollisionBehavior.Player, CollisionBehavior.Player => ResolveResult.abort
    | CollisionBehavior.Player, CollisionBehavior.Movable => ResolveResult.abort
    | CollisionBehavior.Movable, CollisionBehavior.None => ResolveResult.abort
    | CollisionBehavior.Movable, CollisionBehavior.Static => ResolveResult.abort
    | CollisionBehavior.Movable, CollisionBehavior.Npc => ResolveResult.abort
    | CollisionBehavior.Movable, CollisionBehavior.Player => ResolveResult.abort
    | CollisionBehavior.Movable, CollisionBehavior.Movable => ResolveResult.abort
  | some CollisionKind.SensorCollider => ResolveResult.ok transform_q gtransform_q
  | some CollisionKind.SensorSensor => ResolveResult.ok transform_q gtransform_q
  | none => ResolveResult.ok transform_q gtransform_q

/-- One row of the `Changed<GlobalTransform>` query feeding
`updated_computed_aabbs` (main.rs lines 366-377): parent entity, the
volume, its kind and policy tags, and the owner's global transform
translation. -/
structure AabbRow where
  parent : Entity
  aabb : Aabb
  aabb_kind : AabbKind
  collision_behavior : CollisionBehavior
  g_trans : Vec3
deriving DecidableEq

/-- main.rs lines 380-385: the `AabbComputed` built for one query row. -/
def computeAabb (r : AabbRow) : AabbComputed :=
  { min := (r.g_trans.xy).sub r.aabb.extentsScaled
    max := (r.g_trans.xy).add r.aabb.extentsScaled
    aabb_kind := r.aabb_kind
    collision_behavior := r.collision_behavior }

/-- The collision registry: `CollisionWorld.aabbs`, a map from volume
identity to owner and computed bounds (main.rs lines 179-182). -/
abbrev Registry := Uuid → Option (Entity × AabbComputed)

/-- main.rs lines 386-388: one `HashMap::insert` into the registry. -/
def registryInsert (reg : Registry) (r : AabbRow) : Registry :=
  fun u => if u = r.aabb.uuid then some (r.parent, computeAabb r) else reg u

/-- main.rs lines 366-390: `updated_computed_aabbs` over a frame's query
rows, inserting one computed entry per changed volume. -/
def updated_computed_aabbs (rows : List AabbRow) (reg : Registry) : Registry :=
  rows.foldl registryInsert reg

/-! ## Helper lemmas -/

/-- The function `fabs` agrees with the lattice absolute value on `ℚ`. -/
theorem fabs_eq_abs (q : ℚ) : fabs q = |q| := by
  unfold fabs
  rcases le_or_lt 0 q with h | h
  · rw [if_neg (not_lt.mpr h), abs_of_nonneg h]
  · rw [if_pos h, abs_of_neg h]

/-- Characterization of `shallow_axis_displace` in terms of the chosen
horizontal and vertical separations. -/
theorem shallow_axis_displace_char (a b : AabbComputed) (h v : ℚ)
    (hh : h = if |b.min.x - a.max.x| < |b.max.x - a.min.x| then b.min.x - a.max.x
              else b.max.x - a.min.x)
    (hv : v = if |b.max.y - a.min.y| < |b.min.y - a.max.y| then b.max.y - a.min.y
              else b.min.y - a.max.y) :
    a.shallow_axis_displace b = if |h| < |v| then Vec2.mk (h / 2) 0 else Vec2.mk 0 (v / 2) := by
  subst hh hv
  unfold AabbComputed.shallow_axis_displace
  simp only [fabs_eq_abs]

/-- The code's per-axis corner-in-span test, for valid intervals, is
interval overlap plus the requirement that the first interval not strictly
contain the second. -/
theorem axis_cond_iff (a1 a2 b1 b2 : ℚ) (ha : a1 ≤ a2) (hb : b1 ≤ b2) :
    ((a1 ≥ b1 ∧ a1 ≤ b2) ∨ (a2 ≥ b1 ∧ a2 ≤ b2)) ↔
      (a1 ≤ b2 ∧ a2 ≥ b1 ∧ ¬(a1 < b1 ∧ b2 < a2)) := by
  constructor
  · rintro (⟨h1, h2⟩ | ⟨h1, h2⟩)
    · exact ⟨h2, le_trans h1 ha, fun hc => absurd hc.1 (not_lt.mpr h1)⟩
    · exact ⟨le_trans ha h2, h1, fun hc => absurd hc.2 (not_lt.mpr h2)⟩
  · rintro ⟨h1, h2, h3⟩
    by_cases hc : b1 ≤ a1
    · exact Or.inl ⟨hc, h1⟩
    · push_neg at hc
      exact Or.inr ⟨h2, not_lt.mp fun hb2 => h3 ⟨hc, hb2⟩⟩

/-! ## Claim theorems -/

/-- Claim C6: when both computed bounds are owned by the same entity,
`intersects` returns no overlap regardless of the boxes' geometry. -/
theorem intersects_same_owner_none (a b : AabbComputed) (eA eB : Entity)
    (h : eA = eB) : a.intersects b eA eB = none := by
  subst h
  simp [AabbComputed.intersects]

/-- Witness for C6 at a concrete self-overlapping configuration. -/
theorem intersects_same_owner_none_witness :
    AabbComputed.intersects
      ⟨⟨0, 0⟩, ⟨10, 10⟩, AabbKind.Collider, CollisionBehavior.Player⟩
      ⟨⟨2, 2⟩, ⟨8, 8⟩, AabbKind.Sensor, CollisionBehavior.None⟩ 7 7 = none :=
  intersects_same_owner_none _ _ 7 7 rfl

/-- Claim C3: `shallow_axis_displace` returns a vector that is zero on the
non-chosen axis, and equals half the chosen separation on the axis with the
smaller absolute separation (vertical on ties, cf. C5): with `h` the chosen
horizontal separation and `v` the chosen vertical one, the result is
`(h/2, 0)` when `|h| < |v|` and `(0, v/2)` otherwise. -/
theorem shallow_axis_displace_single_axis (a b : AabbComputed) (h v : ℚ)
    (hh : h = if |b.min.x - a.max.x| < |b.max.x - a.min.x| then b.min.x - a.max.x
              else b.max.x - a.min.x)
    (hv : v = if |b.max.y - a.min.y| < |b.min.y - a.max.y| then b.max.y - a.min.y
              else b.min.y - a.max.y) :
    ((a.shallow_axis_displace b).x = 0 ∨ (a.shallow_axis_displace b).y = 0) ∧
    (|h| < |v| → a.shallow_axis_displace b = Vec2.mk (h / 2) 0) ∧
    (¬ |h| < |v| → a.shallow_axis_displace b = Vec2.mk 0 (v / 2)) := by
  rw [shallow_axis_displace_char a b h v hh hv]
  by_cases hlt : |h| < |v|
  · rw [if_pos hlt]
    exact ⟨Or.inr rfl, fun _ => rfl, fun hc => absurd hlt hc⟩
  · rw [if_neg hlt]
    exact ⟨Or.inl rfl, fun hc => absurd hc hlt, fun _ => rfl⟩

/-- Witness for C3: boxes with chosen separations `h = -4`, `v = 4`. -/
theorem shallow_axis_displace_single_axis_witness :
    ((AabbComputed.shallow_axis_displace
        ⟨⟨0, 0⟩, ⟨8, 8⟩, AabbKind.Collider, CollisionBehavior.Player⟩
        ⟨⟨4, -4⟩, ⟨12, 4⟩, AabbKind.Collider, CollisionBehavior.Static⟩).x = 0 ∨
     (AabbComputed.shallow_axis_displace
        ⟨⟨0, 0⟩, ⟨8, 8⟩, AabbKind.Collider, CollisionBehavior.Player⟩
        ⟨⟨4, -4⟩, ⟨12, 4⟩, AabbKind.Collider, CollisionBehavior.Static⟩).y = 0) ∧
    (|(-4 : ℚ)| < |(4 : ℚ)| →
      AabbComputed.shallow_axis_displace
        ⟨⟨0, 0⟩, ⟨8, 8⟩, AabbKind.Collider, CollisionBehavior.Player⟩
        ⟨⟨4, -4⟩, ⟨12, 4⟩, AabbKind.Collider, CollisionBehavior.Static⟩ =
        Vec2.mk ((-4) / 2) 0) ∧
    (¬ |(-4 : ℚ)| < |(4 : ℚ)| →
      AabbComputed.shallow_axis_displace
        ⟨⟨0, 0⟩, ⟨8, 8⟩, AabbKind.Collider, CollisionBehavior.Player⟩
        ⟨⟨4, -4⟩, ⟨12, 4⟩, AabbKind.Collider, CollisionBehavior.Static⟩ =
        Vec2.mk 0 (4 / 2)) :=
  shallow_axis_displace_single_axis _ _ (-4) 4 (by norm_num) (by norm_num)

/-- Claim C5: when the chosen horizontal and vertical separations have equal
absolute magnitude, `shallow_axis_displace` resolves along the vertical
axis, returning `(0, v/2)`. -/
theorem shallow_axis_displace_tie_vertical (a b : AabbComputed) (h v : ℚ)
    (hh : h = if |b.min.x - a.max.x| < |b.max.x - a.min.x| then b.min.x - a.max.x
              else b.max.x - a.min.x)
    (hv : v = if |b.max.y - a.min.y| < |b.min.y - a.max.y| then b.max.y - a.min.y
              else b.min.y - a.max.y)
    (htie : |h| = |v|) :
    a.shallow_axis_displace b = Vec2.mk 0 (v / 2) := by
  rw [shallow_axis_displace_char a b h v hh hv, if_neg (by rw [htie]; exact lt_irrefl _)]

/-- Witness for C5 at the spec's tie scenario `h = -4`, `v = 4`. -/
theorem shallow_axis_displace_tie_vertical_witness :
    AabbComputed.shallow_axis_displace
      ⟨⟨0, 0⟩, ⟨8, 8⟩, AabbKind.Collider, CollisionBehavior.Npc⟩
      ⟨⟨4, -4⟩, ⟨12, 4⟩, AabbKind.Collider, CollisionBehavior.Movable⟩ =
      Vec2.mk 0 (4 / 2) :=
  shallow_axis_displace_tie_vertical _ _ (-4) 4 (by norm_num) (by norm_num) (by norm_num)

/-- Claim C8: an unsupported movement-policy pair — here (Npc, Npc) — with a
ColliderCollider overlap reaches a `todo!()` arm of `handle_collision` and
aborts the process. -/
theorem handle_collision_unsupported_pair_aborts :
    AabbComputed.intersects
      ⟨⟨0, 0⟩, ⟨10, 10⟩, AabbKind.Collider, CollisionBehavior.Npc⟩
      ⟨⟨4, 4⟩, ⟨20, 20⟩, AabbKind.Collider, CollisionBehavior.Npc⟩ 1 2 =
      some CollisionKind.ColliderCollider ∧
    handle_collision_pair 1 2
      ⟨⟨0, 0⟩, ⟨10, 10⟩, AabbKind.Collider, CollisionBehavior.Npc⟩
      ⟨⟨4, 4⟩, ⟨20, 20⟩, AabbKind.Collider, CollisionBehavior.Npc⟩
      (fun _ => ⟨0, 0, 0⟩) (fun _ => ⟨0, 0, 0⟩) = ResolveResult.abort := by
  constructor
  · decide
  · unfold handle_collision_pair
    rw [show AabbComputed.intersects
        ⟨⟨0, 0⟩, ⟨10, 10⟩, AabbKind.Collider, CollisionBehavior.Npc⟩
        ⟨⟨4, 4⟩, ⟨20, 20⟩, AabbKind.Collider, CollisionBehavior.Npc⟩ 1 2 =
        some CollisionKind.ColliderCollider from by decide]

/-- Counterexample to claim C1: `intersects` is not symmetric.  With
`A = [0,10] x [0,10]` (owner 1) and `B = [4,6] x [0,10]` (owner 2), the box
`A` strictly contains `B` on the x axis, so `intersects(A,B)` finds no
corner of `A` inside `B`'s x span and reports no overlap, while the swapped
call reports a ColliderCollider overlap. -/
theorem intersects_not_symmetric_cex :
    (1 : Entity) ≠ 2 ∧
    AabbComputed.intersects
      ⟨⟨0, 0⟩, ⟨10, 10⟩, AabbKind.Collider, CollisionBehavior.Player⟩
      ⟨⟨4, 0⟩, ⟨6, 10⟩, AabbKind.Collider, CollisionBehavior.Static⟩ 1 2 = none ∧
    AabbComputed.intersects
      ⟨⟨4, 0⟩, ⟨6, 10⟩, AabbKind.Collider, CollisionBehavior.Static⟩
      ⟨⟨0, 0⟩, ⟨10, 10⟩, AabbKind.Collider, CollisionBehavior.Player⟩ 2 1 =
      some CollisionKind.ColliderCollider := by
  decide

/-- Claim C1 as amended: for valid bounds, `intersects` is symmetric (same
result, hence the same OverlapKind) whenever on each axis neither box's
interval strictly contains the other's. -/
theorem intersects_symm_of_no_strict_containment (a b : AabbComputed) (eA eB : Entity)
    (haX : a.min.x ≤ a.max.x) (haY : a.min.y ≤ a.max.y)
    (hbX : b.min.x ≤ b.max.x) (hbY : b.min.y ≤ b.max.y)
    (hx1 : ¬(a.min.x < b.min.x ∧ b.max.x < a.max.x))
    (hx2 : ¬(b.min.x < a.min.x ∧ a.max.x < b.max.x))
    (hy1 : ¬(a.min.y < b.min.y ∧ b.max.y < a.max.y))
    (hy2 : ¬(b.min.y < a.min.y ∧ a.max.y < b.max.y)) :
    a.intersects b eA eB = b.intersects a eB eA := by
  have ex : ((a.min.x ≥ b.min.x ∧ a.min.x ≤ b.max.x) ∨
        (a.max.x ≥ b.min.x ∧ a.max.x ≤ b.max.x)) ↔
      ((b.min.x ≥ a.min.x ∧ b.min.x ≤ a.max.x) ∨
        (b.max.x ≥ a.min.x ∧ b.max.x ≤ a.max.x)) := by
    rw [axis_cond_iff _ _ _ _ haX hbX, axis_cond_iff _ _ _ _ hbX haX]
    constructor
    · rintro ⟨h1, h2, -⟩; exact ⟨h2, h1, hx2⟩
    · rintro ⟨h1, h2, -⟩; exact ⟨h2, h1, hx1⟩
  have ey : ((a.min.y ≥ b.min.y ∧ a.min.y ≤ b.max.y) ∨
        (a.max.y ≥ b.min.y ∧ a.max.y ≤ b.max.y)) ↔
      ((b.min.y ≥ a.min.y ∧ b.min.y ≤ a.max.y) ∨
        (b.max.y ≥ a.min.y ∧ b.max.y ≤ a.max.y)) := by
    rw [axis_cond_iff _ _ _ _ haY hbY, axis_cond_iff _ _ _ _ hbY haY]
    constructor
    · rintro ⟨h1, h2, -⟩; exact ⟨h2, h1, hy2⟩
    · rintro ⟨h1, h2, -⟩; exact ⟨h2, h1, hy1⟩
  unfold AabbComputed.intersects
  by_cases he : eA = eB
  · rw [if_pos he, if_pos he.symm]
  · rw [if_neg he, if_neg (Ne.symm he)]
    by_cases hc : ((a.min.x ≥ b.min.x ∧ a.min.x ≤ b.max.x) ∨
        (a.max.x ≥ b.min.x ∧ a.max.x ≤ b.max.x)) ∧
      ((a.min.y ≥ b.min.y ∧ a.min.y ≤ b.max.y) ∨
        (a.max.y ≥ b.min.y ∧ a.max.y ≤ b.max.y))
    · rw [if_pos hc, if_pos ⟨ex.mp hc.1, ey.mp hc.2⟩]
      cases hk1 : a.aabb_kind <;> cases hk2 : b.aabb_kind <;> simp [hk1, hk2]
    · rw [if_neg hc, if_neg (fun h => hc ⟨ex.mpr h.1, ey.mpr h.2⟩)]

/-- Witness for the amended C1 at a pair with no strict containment on
either axis. -/
theorem intersects_symm_of_no_strict_containment_witness :
    AabbComputed.intersects
      ⟨⟨0, 0⟩, ⟨10, 10⟩, AabbKind.Collider, CollisionBehavior.Player⟩
      ⟨⟨5, 5⟩, ⟨15, 15⟩, AabbKind.Collider, CollisionBehavior.Static⟩ 1 2 =
    AabbComputed.intersects
      ⟨⟨5, 5⟩, ⟨15, 15⟩, AabbKind.Collider, CollisionBehavior.Static⟩
      ⟨⟨0, 0⟩, ⟨10, 10⟩, AabbKind.Collider, CollisionBehavior.Player⟩ 2 1 :=
  intersects_symm_of_no_strict_containment _ _ 1 2 (by decide) (by decide)
    (by decide) (by decide) (by decide) (by decide) (by decide) (by decide)

/-- Counterexample to claim C2: the boxes `A = [0,10] x [0,10]` (owner 1)
and `B = [4,6] x [0,10]` (owner 2) satisfy the inclusive-boundary interval
test on both axes (`A.min <= B.max` and `A.max >= B.min`), yet `intersects`
reports no overlap, because `A` strictly contains `B` on x and neither of
`A`'s x corners lies in `B`'s x span. -/
theorem intersects_interval_overlap_cex :
    (1 : Entity) ≠ 2 ∧
    ((0 : ℚ) ≤ 6 ∧ (10 : ℚ) ≥ 4 ∧ (0 : ℚ) ≤ 10 ∧ (10 : ℚ) ≥ 0) ∧
    AabbComputed.intersects
      ⟨⟨0, 0⟩, ⟨10, 10⟩, AabbKind.Collider, CollisionBehavior.None⟩
      ⟨⟨4, 0⟩, ⟨6, 10⟩, AabbKind.Collider, CollisionBehavior.None⟩ 1 2 = none := by
  decide

/-- Claim C2 as amended: for distinct owners and valid bounds, `intersects`
reports an overlap iff on each axis the intervals overlap inclusively AND
self's interval does not strictly contain other's; boundary-touching
(`self.max.x = other.min.x`) still counts as overlapping. -/
theorem intersects_reports_iff_corner_in_span (a b : AabbComputed) (eA eB : Entity)
    (hne : eA ≠ eB)
    (haX : a.min.x ≤ a.max.x) (haY : a.min.y ≤ a.max.y)
    (hbX : b.min.x ≤ b.max.x) (hbY : b.min.y ≤ b.max.y) :
    (a.intersects b eA eB ≠ none ↔
      ((a.min.x ≤ b.max.x ∧ a.max.x ≥ b.min.x ∧ ¬(a.min.x < b.min.x ∧ b.max.x < a.max.x)) ∧
       (a.min.y ≤ b.max.y ∧ a.max.y ≥ b.min.y ∧ ¬(a.min.y < b.min.y ∧ b.max.y < a.max.y)))) ∧
    (a.max.x = b.min.x →
      a.min.y ≤ b.max.y → a.max.y ≥ b.min.y → ¬(a.min.y < b.min.y ∧ b.max.y < a.max.y) →
      a.intersects b eA eB ≠ none) := by
  have key : a.intersects b eA eB ≠ none ↔
      (((a.min.x ≥ b.min.x ∧ a.min.x ≤ b.max.x) ∨
        (a.max.x ≥ b.min.x ∧ a.max.x ≤ b.max.x)) ∧
       ((a.min.y ≥ b.min.y ∧ a.min.y ≤ b.max.y) ∨
        (a.max.y ≥ b.min.y ∧ a.max.y ≤ b.max.y))) := by
    unfold AabbComputed.intersects
    rw [if_neg hne]
    by_cases hc : (((a.min.x ≥ b.min.x ∧ a.min.x ≤ b.max.x) ∨
        (a.max.x ≥ b.min.x ∧ a.max.x ≤ b.max.x)) ∧
       ((a.min.y ≥ b.min.y ∧ a.min.y ≤ b.max.y) ∨
        (a.max.y ≥ b.min.y ∧ a.max.y ≤ b.max.y)))
    · rw [if_pos hc]
      simp [hc]
    · rw [if_neg hc]
      simp [hc]
  refine ⟨?_, ?_⟩
  · rw [key]
    exact and_congr (axis_cond_iff _ _ _ _ haX hbX) (axis_cond_iff _ _ _ _ haY hbY)
  · intro hbx hy1 hy2 hy3
    rw [key]
    refine ⟨Or.inr ⟨hbx.ge, by rw [hbx]; exact hbX⟩, ?_⟩
    exact (axis_cond_iff _ _ _ _ haY hbY).mpr ⟨hy1, hy2, hy3⟩

/-- Witness for the amended C2 at a boundary-touching pair. -/
theorem intersects_reports_iff_corner_in_span_witness :
    (AabbComputed.intersects
        ⟨⟨0, 0⟩, ⟨4, 4⟩, AabbKind.Collider, CollisionBehavior.Player⟩
        ⟨⟨4, 0⟩, ⟨8, 4⟩, AabbKind.Collider, CollisionBehavior.Static⟩ 1 2 ≠ none ↔
      (((0 : ℚ) ≤ 8 ∧ (4 : ℚ) ≥ 4 ∧ ¬((0 : ℚ) < 4 ∧ (8 : ℚ) < 4)) ∧
       ((0 : ℚ) ≤ 4 ∧ (4 : ℚ) ≥ 0 ∧ ¬((0 : ℚ) < 0 ∧ (4 : ℚ) < 4)))) ∧
    ((4 : ℚ) = 4 →
      (0 : ℚ) ≤ 4 → (4 : ℚ) ≥ 0 → ¬((0 : ℚ) < 0 ∧ (4 : ℚ) < 4) →
      AabbComputed.intersects
        ⟨⟨0, 0⟩, ⟨4, 4⟩, AabbKind.Collider, CollisionBehavior.Player⟩
        ⟨⟨4, 0⟩, ⟨8, 4⟩, AabbKind.Collider, CollisionBehavior.Static⟩ 1 2 ≠ none) :=
  intersects_reports_iff_corner_in_span _ _ 1 2 (by decide) (by decide) (by decide)
    (by decide) (by decide)

/-- Counterexample to claim C10 as stated: with `A = [0,10] x [4,6]`
(owner 1) strictly containing `B = [4,6] x [0,10]` (owner 2) on the x axis
and the code's y-axis condition for `(A,B)` holding, the swapped call
`intersects(B,A)` nevertheless reports no overlap either, because `B`
strictly contains `A` on the y axis. -/
theorem intersects_containment_swap_cex :
    ((0 : ℚ) < 4 ∧ (6 : ℚ) < 10) ∧
    (((4 : ℚ) ≥ 0 ∧ (4 : ℚ) ≤ 10) ∨ ((6 : ℚ) ≥ 0 ∧ (6 : ℚ) ≤ 10)) ∧
    AabbComputed.intersects
      ⟨⟨0, 4⟩, ⟨10, 6⟩, AabbKind.Collider, CollisionBehavior.Player⟩
      ⟨⟨4, 0⟩, ⟨6, 10⟩, AabbKind.Collider, CollisionBehavior.Static⟩ 1 2 = none ∧
    AabbComputed.intersects
      ⟨⟨4, 0⟩, ⟨6, 10⟩, AabbKind.Collider, CollisionBehavior.Static⟩
      ⟨⟨0, 4⟩, ⟨10, 6⟩, AabbKind.Collider, CollisionBehavior.Player⟩ 2 1 = none := by
  decide

/-- Claim C10 as amended: when `A` strictly contains `B` on the x axis and
the code's y-axis condition holds for both call orders, `intersects(A,B)`
misses the geometric overlap while `intersects(B,A)` reports it. -/
theorem intersects_containment_asymmetry (a b : AabbComputed) (eA eB : Entity)
    (hne : eA ≠ eB)
    (hbX : b.min.x ≤ b.max.x) (haY : a.min.y ≤ a.max.y)
    (hx1 : a.min.x < b.min.x) (hx2 : b.max.x < a.max.x)
    (hyAB : (a.min.y ≥ b.min.y ∧ a.min.y ≤ b.max.y) ∨
      (a.max.y ≥ b.min.y ∧ a.max.y ≤ b.max.y))
    (hyBA : (b.min.y ≥ a.min.y ∧ b.min.y ≤ a.max.y) ∨
      (b.max.y ≥ a.min.y ∧ b.max.y ≤ a.max.y)) :
    a.intersects b eA eB = none ∧
    (∃ k, b.intersects a eB eA = some k) ∧
    (a.min.x ≤ b.max.x ∧ b.min.x ≤ a.max.x ∧ a.min.y ≤ b.max.y ∧ b.min.y ≤ a.max.y) := by
  refine ⟨?_, ?_, ?_, ?_, ?_, ?_⟩
  · unfold AabbComputed.intersects
    rw [if_neg hne, if_neg]
    rintro ⟨(⟨h1, -⟩ | ⟨-, h4⟩), -⟩
    · exact absurd hx1 (not_lt.mpr h1)
    · exact absurd hx2 (not_lt.mpr h4)
  · unfold AabbComputed.intersects
    rw [if_neg (Ne.symm hne),
      if_pos ⟨Or.inl ⟨le_of_lt hx1, le_trans hbX (le_of_lt hx2)⟩, hyBA⟩]
    exact ⟨_, rfl⟩
  · exact le_of_lt (lt_of_lt_of_le hx1 hbX)
  · exact le_trans hbX (le_of_lt hx2)
  · rcases hyAB with ⟨-, h2⟩ | ⟨-, h2⟩
    · exact h2
    · exact le_trans haY h2
  · rcases hyAB with ⟨h1, -⟩ | ⟨h1, -⟩
    · exact le_trans h1 haY
    · exact h1

/-- Witness for the amended C10: `A = [0,10] x [0,10]` strictly contains
`B = [4,6] x [0,10]` on x while the y condition holds both ways. -/
theorem intersects_containment_asymmetry_witness :
    AabbComputed.intersects
      ⟨⟨0, 0⟩, ⟨10, 10⟩, AabbKind.Collider, CollisionBehavior.Player⟩
      ⟨⟨4, 0⟩, ⟨6, 10⟩, AabbKind.Collider, CollisionBehavior.Static⟩ 1 2 = none ∧
    (∃ k, AabbComputed.intersects
      ⟨⟨4, 0⟩, ⟨6, 10⟩, AabbKind.Collider, CollisionBehavior.Static⟩
      ⟨⟨0, 0⟩, ⟨10, 10⟩, AabbKind.Collider, CollisionBehavior.Player⟩ 2 1 = some k) ∧
    ((0 : ℚ) ≤ 6 ∧ (4 : ℚ) ≤ 10 ∧ (0 : ℚ) ≤ 10 ∧ (0 : ℚ) ≤ 10) :=
  intersects_containment_asymmetry
    ⟨⟨0, 0⟩, ⟨10, 10⟩, AabbKind.Collider, CollisionBehavior.Player⟩
    ⟨⟨4, 0⟩, ⟨6, 10⟩, AabbKind.Collider, CollisionBehavior.Static⟩ 1 2
    (by decide) (by decide) (by decide) (by decide) (by decide) (by decide) (by decide)

/-- Claim C4: for a ColliderCollider overlap, the (Player, Static) and
(Static, Player) policy pairs displace only the Player's owning entity's
local and global transform translation by the shallow-axis displacement
(the Static entity and everything else unchanged), and the (None, None)
pair changes nothing. -/
theorem handle_collision_policy_dispatch (ent1 ent2 : Entity)
    (aabb1 aabb2 : AabbComputed) (t g : Entity → Vec3)
    (hcc : aabb1.intersects aabb2 ent1 ent2 = some CollisionKind.ColliderCollider) :
    ent1 ≠ ent2 ∧
    ((aabb1.collision_behavior = CollisionBehavior.Player ∧
        aabb2.collision_behavior = CollisionBehavior.Static) →
      ∃ t' g', handle_collision_pair ent1 ent2 aabb1 aabb2 t g = ResolveResult.ok t' g' ∧
        t' ent1 = (t ent1).addVec ((aabb1.shallow_axis_displace aabb2).extend 0) ∧
        g' ent1 = (g ent1).addVec ((aabb1.shallow_axis_displace aabb2).extend 0) ∧
        ∀ e, e ≠ ent1 → t' e = t e ∧ g' e = g e) ∧
    ((aabb1.collision_behavior = CollisionBehavior.Static ∧
        aabb2.collision_behavior = CollisionBehavior.Player) →
      ∃ t' g', handle_collision_pair ent1 ent2 aabb1 aabb2 t g = ResolveResult.ok t' g' ∧
        t' ent2 = (t ent2).addVec ((aabb2.shallow_axis_displace aabb1).extend 0) ∧
        g' ent2 = (g ent2).addVec ((aabb2.shallow_axis_displace aabb1).extend 0) ∧
        ∀ e, e ≠ ent2 → t' e = t e ∧ g' e = g e) ∧
    ((aabb1.collision_behavior = CollisionBehavior.None ∧
        aabb2.collision_behavior = CollisionBehavior.None) →
      handle_collision_pair ent1 ent2 aabb1 aabb2 t g = ResolveResult.ok t g) := by
  have hne : ent1 ≠ ent2 := by
    intro he
    unfold AabbComputed.intersects at hcc
    rw [if_pos he] at hcc
    exact Option.noConfusion hcc
  refine ⟨hne, ?_, ?_, ?_⟩
  · rintro ⟨h1, h2⟩
    unfold handle_collision_pair
    rw [hcc]
    simp only [h1, h2]
    refine ⟨_, _, rfl, ?_, ?_, ?_⟩
    · simp
    · simp
    · intro e he'
      constructor <;> simp [he']
  · rintro ⟨h1, h2⟩
    unfold handle_collision_pair
    rw [hcc]
    simp only [h1, h2]
    refine ⟨_, _, rfl, ?_, ?_, ?_⟩
    · simp
    · simp
    · intro e he'
      constructor <;> simp [he']
  · rintro ⟨h1, h2⟩
    unfold handle_collision_pair
    rw [hcc]
    simp only [h1, h2]

/-- Witness for C4 at the spec's scenario: Player box `[0,32] x [0,32]`
against Static box `[16,48] x [0,32]`, both transform stores at the
origin; only entity 1 (the Player's owner) is displaced. -/
theorem handle_collision_policy_dispatch_witness :
    ∃ t' g',
      handle_collision_pair 1 2
        ⟨⟨0, 0⟩, ⟨32, 32⟩, AabbKind.Collider, CollisionBehavior.Player⟩
        ⟨⟨16, 0⟩, ⟨48, 32⟩, AabbKind.Collider, CollisionBehavior.Static⟩
        (fun _ => ⟨0, 0, 0⟩) (fun _ => ⟨0, 0, 0⟩) = ResolveResult.ok t' g' ∧
      t' 1 = ((fun _ => (⟨0, 0, 0⟩ : Vec3)) 1).addVec
          ((AabbComputed.shallow_axis_displace
              ⟨⟨0, 0⟩, ⟨32, 32⟩, AabbKind.Collider, CollisionBehavior.Player⟩
              ⟨⟨16, 0⟩, ⟨48, 32⟩, AabbKind.Collider, CollisionBehavior.Static⟩).extend 0) ∧
      g' 1 = ((fun _ => (⟨0, 0, 0⟩ : Vec3)) 1).addVec
          ((AabbComputed.shallow_axis_displace
              ⟨⟨0, 0⟩, ⟨32, 32⟩, AabbKind.Collider, CollisionBehavior.Player⟩
              ⟨⟨16, 0⟩, ⟨48, 32⟩, AabbKind.Collider, CollisionBehavior.Static⟩).extend 0) ∧
      ∀ e, e ≠ 1 → t' e = (fun _ => (⟨0, 0, 0⟩ : Vec3)) e ∧
        g' e = (fun _ => (⟨0, 0, 0⟩ : Vec3)) e :=
  (handle_collision_policy_dispatch 1 2
      ⟨⟨0, 0⟩, ⟨32, 32⟩, AabbKind.Collider, CollisionBehavior.Player⟩
      ⟨⟨16, 0⟩, ⟨48, 32⟩, AabbKind.Collider, CollisionBehavior.Static⟩
      (fun _ => ⟨0, 0, 0⟩) (fun _ => ⟨0, 0, 0⟩) (by decide)).2.1 ⟨rfl, rfl⟩

/-- Keys absent from a frame's query rows are untouched by the refresh. -/
theorem updated_computed_aabbs_not_mem (rows : List AabbRow) :
    ∀ (reg : Registry) (u : Uuid), u ∉ rows.map (fun r => r.aabb.uuid) →
      updated_computed_aabbs rows reg u = reg u := by
  induction rows with
  | nil => intro reg u _; rfl
  | cons r rows ih =>
    intro reg u hu
    simp only [List.map_cons, List.mem_cons, not_or] at hu
    have hstep : updated_computed_aabbs (r :: rows) reg =
        updated_computed_aabbs rows (registryInsert reg r) := rfl
    rw [hstep, ih (registryInsert reg r) u hu.2]
    unfold registryInsert
    rw [if_neg hu.1]

/-- Each queried volume's key ends up mapped to its computed entry. -/
theorem updated_computed_aabbs_mem (rows : List AabbRow) :
    ∀ (reg : Registry), (rows.map (fun r => r.aabb.uuid)).Nodup →
      ∀ r ∈ rows, updated_computed_aabbs rows reg r.aabb.uuid =
        some (r.parent, computeAabb r) := by
  induction rows with
  | nil => intro reg _ r hr; cases hr
  | cons r0 rows ih =>
    intro reg hnodup r hr
    simp only [List.map_cons, List.nodup_cons] at hnodup
    have hstep : updated_computed_aabbs (r0 :: rows) reg =
        updated_computed_aabbs rows (registryInsert reg r0) := rfl
    rcases List.mem_cons.mp hr with h | h
    · subst h
      rw [hstep,
        updated_computed_aabbs_not_mem rows (registryInsert reg r) r.aabb.uuid hnodup.1]
      unfold registryInsert
      rw [if_pos rfl]
    · rw [hstep]
      exact ih (registryInsert reg r0) hnodup.2 r h

/-- Claim C7: a refresh writes, for every changed volume, the entry
`min = world_position - extents * SCALE / 2`,
`max = world_position + extents * SCALE / 2` (the global scale and the
extra halving), with kind and movement policy copied alongside, keyed by
the volume's identity; every other key is left unmodified. -/
theorem updated_computed_aabbs_spec (rows : List AabbRow) (reg : Registry)
    (hnodup : (rows.map (fun r => r.aabb.uuid)).Nodup) :
    (∀ r ∈ rows, updated_computed_aabbs rows reg r.aabb.uuid =
      some (r.parent,
        { min := Vec2.mk (r.g_trans.x - r.aabb.extents.x * SCALE / 2)
                         (r.g_trans.y - r.aabb.extents.y * SCALE / 2)
          max := Vec2.mk (r.g_trans.x + r.aabb.extents.x * SCALE / 2)
                         (r.g_trans.y + r.aabb.extents.y * SCALE / 2)
          aabb_kind := r.aabb_kind
          collision_behavior := r.collision_behavior })) ∧
    (∀ u, u ∉ rows.map (fun r => r.aabb.uuid) →
      updated_computed_aabbs rows reg u = reg u) := by
  constructor
  · intro r hr
    rw [updated_computed_aabbs_mem rows reg hnodup r hr]
    rfl
  · exact fun u hu => updated_computed_aabbs_not_mem rows reg u hu

/-- Witness for C7 on a one-row refresh of the empty registry. -/
theorem updated_computed_aabbs_spec_witness :
    (∀ r ∈ [(⟨1, ⟨5, ⟨32, 32⟩⟩, AabbKind.Collider, CollisionBehavior.Player,
        ⟨100, 50, 0⟩⟩ : AabbRow)],
      updated_computed_aabbs
        [⟨1, ⟨5, ⟨32, 32⟩⟩, AabbKind.Collider, CollisionBehavior.Player, ⟨100, 50, 0⟩⟩]
        (fun _ => none) r.aabb.uuid =
      some (r.parent,
        { min := Vec2.mk (r.g_trans.x - r.aabb.extents.x * SCALE / 2)
                         (r.g_trans.y - r.aabb.extents.y * SCALE / 2)
          max := Vec2.mk (r.g_trans.x + r.aabb.extents.x * SCALE / 2)
                         (r.g_trans.y + r.aabb.extents.y * SCALE / 2)
          aabb_kind := r.aabb_kind
          collision_behavior := r.collision_behavior })) ∧
    (∀ u, u ∉ List.map (fun r => r.aabb.uuid)
        [(⟨1, ⟨5, ⟨32, 32⟩⟩, AabbKind.Collider, CollisionBehavior.Player,
          ⟨100, 50, 0⟩⟩ : AabbRow)] →
      updated_computed_aabbs
        [⟨1, ⟨5, ⟨32, 32⟩⟩, AabbKind.Collider, CollisionBehavior.Player, ⟨100, 50, 0⟩⟩]
        (fun _ => none) u = (fun _ => none) u) :=
  updated_computed_aabbs_spec
    [⟨1, ⟨5, ⟨32, 32⟩⟩, AabbKind.Collider, CollisionBehavior.Player, ⟨100, 50, 0⟩⟩]
    (fun _ => none) (by simp)

/-- With non-negative extents, a computed entry has ordered corners. -/
theorem computeAabb_min_le_max (r : AabbRow)
    (hx : 0 ≤ r.aabb.extents.x) (hy : 0 ≤ r.aabb.extents.y) :
    (computeAabb r).min.x ≤ (computeAabb r).max.x ∧
    (computeAabb r).min.y ≤ (computeAabb r).max.y := by
  simp only [computeAabb, Aabb.extentsScaled, Vec2.sub, Vec2.add, Vec3.xy, SCALE]
  constructor <;> linarith

/-- Refreshing preserves the corner-ordering invariant of every entry. -/
theorem updated_computed_aabbs_inv (rows : List AabbRow) :
    ∀ (reg : Registry),
      (∀ r ∈ rows, 0 ≤ r.aabb.extents.x ∧ 0 ≤ r.aabb.extents.y) →
      (∀ u e c, reg u = some (e, c) → c.min.x ≤ c.max.x ∧ c.min.y ≤ c.max.y) →
      ∀ u e c, updated_computed_aabbs rows reg u = some (e, c) →
        c.min.x ≤ c.max.x ∧ c.min.y ≤ c.max.y := by
  induction rows with
  | nil => intro reg _ hreg; exact hreg
  | cons r0 rows ih =>
    intro reg hext hreg
    have hstep : updated_computed_aabbs (r0 :: rows) reg =
        updated_computed_aabbs rows (registryInsert reg r0) := rfl
    rw [hstep]
    apply ih (registryInsert reg r0)
      (fun r hr => hext r (List.mem_cons_of_mem r0 hr))
    intro u e c h
    unfold registryInsert at h
    by_cases hu : u = r0.aabb.uuid
    · rw [if_pos hu] at h
      injection h with h1
      injection h1 with h2 h3
      rw [← h3]
      exact computeAabb_min_le_max r0 (hext r0 (List.mem_cons_self r0 rows)).1
        (hext r0 (List.mem_cons_self r0 rows)).2
    · rw [if_neg hu] at h
      exact hreg u e c h

/-- Claim C9: with non-negative half-extents, each recomputed bounds entry
satisfies `min.x <= max.x` and `min.y <= max.y`, and a refresh of a
registry whose entries satisfy the invariant yields a registry whose
entries all satisfy it. -/
theorem registry_refresh_invariant (rows : List AabbRow) (reg : Registry)
    (hext : ∀ r ∈ rows, 0 ≤ r.aabb.extents.x ∧ 0 ≤ r.aabb.extents.y)
    (hreg : ∀ u e c, reg u = some (e, c) → c.min.x ≤ c.max.x ∧ c.min.y ≤ c.max.y) :
    (∀ r ∈ rows, (computeAabb r).min.x ≤ (computeAabb r).max.x ∧
      (computeAabb r).min.y ≤ (computeAabb r).max.y) ∧
    (∀ u e c, updated_computed_aabbs rows reg u = some (e, c) →
      c.min.x ≤ c.max.x ∧ c.min.y ≤ c.max.y) :=
  ⟨fun r hr => computeAabb_min_le_max r (hext r hr).1 (hext r hr).2,
   updated_computed_aabbs_inv rows reg hext hreg⟩

/-- Witness for C9 on a one-row refresh of the empty registry. -/
theorem registry_refresh_invariant_witness :
    (∀ r ∈ [(⟨2, ⟨9, ⟨46, 46⟩⟩, AabbKind.Sensor, CollisionBehavior.None,
        ⟨-300, -200, 0⟩⟩ : AabbRow)],
      (computeAabb r).min.x ≤ (computeAabb r).max.x ∧
      (computeAabb r).min.y ≤ (computeAabb r).max.y) ∧
    (∀ u e c, updated_computed_aabbs
        [⟨2, ⟨9, ⟨46, 46⟩⟩, AabbKind.Sensor, CollisionBehavior.None, ⟨-300, -200, 0⟩⟩]
        (fun _ => none) u = some (e, c) →
      c.min.x ≤ c.max.x ∧ c.min.y ≤ c.max.y) :=
  registry_refresh_invariant
    [⟨2, ⟨9, ⟨46, 46⟩⟩, AabbKind.Sensor, CollisionBehavior.None, ⟨-300, -200, 0⟩⟩]
    (fun _ => none) (by decide) (fun u e c h => Option.noConfusion h)
